import Mathlib

/-!
Verification model of the trilobot-python network service layer
(examples/commander): the TCP command server, the UDP video streamer and
the controller-side client. Python data and control flow are embedded
shallowly: JSON values become an inductive type, the dispatcher and the
worker loops become pure functions over explicit state, and Python
exceptions become an error monad whose handlers mirror the except clauses
of the source.
-/

namespace Trilobot

/-- Lowercasing of one character, as Python str.lower acts on the ASCII
range; every action recognized by the dispatcher is ASCII. -/
def pyLowerChar (c : Char) : Char :=
  if 65 ≤ c.toNat ∧ c.toNat ≤ 90 then Char.ofNat (c.toNat + 32) else c

/-- Model of Python str.lower. -/
def pyLower (s : String) : String :=
  ⟨s.data.map pyLowerChar⟩

/-- Values produced by json.loads: null, booleans, numbers, strings,
arrays and objects. JSON numbers are decimal literals, embedded as
rationals. -/
inductive J where
  | null
  | bool (b : Bool)
  | num (q : ℚ)
  | str (s : String)
  | arr (elems : List J)
  | obj (fields : List (String × J))

/-- Python exception classes distinguished by the except clauses of
CommandServer.parse_command. -/
inductive PyExc where
  | jsonDecodeError
  | valueError
  | typeError
  | keyError
  | attributeError
deriving Repr, DecidableEq

/-- Lookup in a JSON-object field list. Python json.loads builds a dict,
so on duplicate keys the last occurrence wins. -/
def lookupLast (fields : List (String × J)) (key : String) : Option J :=
  (fields.reverse.find? (fun kv => kv.1 == key)).map (fun kv => kv.2)

/-- Model of dict.get(key, default) on a loaded JSON object. -/
def dictGet (fields : List (String × J)) (key : String) (dflt : J) : J :=
  (lookupLast fields key).getD dflt

/-- Value of a decimal digit character. -/
def digitVal (c : Char) : ℕ := c.toNat - 48

/-- Value of a nonempty all-digit character list, most significant first. -/
def digitsVal (cs : List Char) : ℕ :=
  cs.foldl (fun a c => a * 10 + digitVal c) 0

/-- Model of Python float(s) on a string: surrounding whitespace stripped,
optional sign, digits with an optional fractional part. Exponent and
inf/nan forms are not used by any caller in this repository. Returns none
where Python raises ValueError. -/
def floatLit? (s : String) : Option ℚ :=
  let cs := s.trim.toList
  let signed : ℚ × List Char :=
    match cs with
    | '-' :: rest => (-1, rest)
    | '+' :: rest => (1, rest)
    | rest => (1, rest)
  let sign := signed.1
  let body := signed.2
  let intPart := body.takeWhile Char.isDigit
  let rest := body.dropWhile Char.isDigit
  match rest with
  | [] =>
    if intPart.isEmpty then none
    else some (sign * (digitsVal intPart : ℚ))
  | '.' :: frac =>
    if frac.all Char.isDigit && !(intPart.isEmpty && frac.isEmpty) then
      some (sign * ((digitsVal intPart : ℚ) +
        (digitsVal frac : ℚ) / (10 : ℚ) ^ frac.length))
    else none
  | _ => none

/-- Model of Python int(s) on a string: surrounding whitespace stripped,
optional sign, decimal digits. Returns none where Python raises
ValueError. -/
def intLit? (s : String) : Option ℤ :=
  let cs := s.trim.toList
  let signed : ℤ × List Char :=
    match cs with
    | '-' :: rest => (-1, rest)
    | '+' :: rest => (1, rest)
    | rest => (1, rest)
  if signed.2.isEmpty || !(signed.2.all Char.isDigit) then none
  else some (signed.1 * (digitsVal signed.2 : ℤ))

/-- Truncation toward zero, as Python int() applied to a float. -/
def ratTrunc (q : ℚ) : ℤ :=
  if 0 ≤ q then ⌊q⌋ else -⌊-q⌋

/-- Model of the Python builtin float() applied to a value loaded from
JSON: floats and ints pass through, booleans coerce to 0 or 1, numeric
strings parse, everything else raises (TypeError for non-strings,
ValueError for non-numeric strings). -/
def pyFloat : J → Except PyExc ℚ
  | .null => .error .typeError
  | .bool b => .ok (if b then 1 else 0)
  | .num q => .ok q
  | .str s =>
    match floatLit? s with
    | some q => .ok q
    | none => .error .valueError
  | .arr _ => .error .typeError
  | .obj _ => .error .typeError

/-- Model of the Python builtin int() applied to a value loaded from
JSON. int(None) raises TypeError, which is how a missing required field
surfaces in set_led. -/
def pyInt : J → Except PyExc ℤ
  | .null => .error .typeError
  | .bool b => .ok (if b then 1 else 0)
  | .num q => .ok (ratTrunc q)
  | .str s =>
    match intLit? s with
    | some n => .ok n
    | none => .error .valueError
  | .arr _ => .error .typeError
  | .obj _ => .error .typeError

/-- Calls the dispatcher makes on the Trilobot actuator capability. -/
inductive Eff where
  | forward (speed : ℚ)
  | backward (speed : ℚ)
  | turn_left (speed : ℚ)
  | turn_right (speed : ℚ)
  | set_motor_speeds (left right : ℚ)
  | stop
  | coast
  | set_button_led (led : ℤ) (value : ℚ)
  | fill_underlighting (r g b : ℤ)
  | read_distance
deriving Repr, DecidableEq

/-- Observable outcome of one call to CommandServer.parse_command: the
returned Bool (true means keep listening), the actuator calls made, and
the exact reply bytes written on the connection, in order. -/
structure DispatchOut where
  cont : Bool
  effects : List Eff
  replies : List String
deriving Repr, DecidableEq

/-- Exact bytes of the ping reply written by the source:
conn.sendall of the literal byte string with a space after the colon. -/
def pongReply : String := "\x7b\"status\": \"pong\"\x7d\n"

/-- Bytes of the read_distance reply: json.dumps of the status object
plus a newline. json.dumps renders with a space after each colon and
comma; distanceRepr stands for the decimal rendering of the float the
hardware returned, which is external to this layer. -/
def distanceReply (distanceRepr : String) : String :=
  "\x7b\"status\": \"distance\", \"value\": " ++ distanceRepr ++ "\x7d\n"

namespace CommandServer

/-- Body of the try block of CommandServer.parse_command, evaluated on
the value json.loads produced. A non-dict value raises AttributeError at
command.get, and a non-string action value raises AttributeError at
.lower(); parameter coercions raise per pyFloat and pyInt. distanceRepr
is the rendering of the externally measured distance used in the
read_distance reply. -/
def parseBody (distanceRepr : String) (j : J) : Except PyExc DispatchOut :=
  match j with
  | .obj fields =>
    match dictGet fields "action" (.str "") with
    | .str rawAction =>
      let action := pyLower rawAction
      if action = "" then .ok ⟨true, [], []⟩
      else if action = "forward" then
        match pyFloat (dictGet fields "speed" (.num 1)) with
        | .ok speed => .ok ⟨true, [.forward speed], []⟩
        | .error e => .error e
      else if action = "backward" then
        match pyFloat (dictGet fields "speed" (.num 1)) with
        | .ok speed => .ok ⟨true, [.backward speed], []⟩
        | .error e => .error e
      else if action = "turn_left" then
        match pyFloat (dictGet fields "speed" (.num 1)) with
        | .ok speed => .ok ⟨true, [.turn_left speed], []⟩
        | .error e => .error e
      else if action = "turn_right" then
        match pyFloat (dictGet fields "speed" (.num 1)) with
        | .ok speed => .ok ⟨true, [.turn_right speed], []⟩
        | .error e => .error e
      else if action = "set_speeds" then
        match pyFloat (dictGet fields "left" (.num 0)) with
        | .ok left =>
          match pyFloat (dictGet fields "right" (.num 0)) with
          | .ok right => .ok ⟨true, [.set_motor_speeds left right], []⟩
          | .error e => .error e
        | .error e => .error e
      else if action = "stop" then .ok ⟨true, [.stop], []⟩
      else if action = "coast" then .ok ⟨true, [.coast], []⟩
      else if action = "set_led" then
        match pyInt (dictGet fields "led" .null) with
        | .ok led_id =>
          match pyFloat (dictGet fields "value" .null) with
          | .ok value => .ok ⟨true, [.set_button_led led_id value], []⟩
          | .error e => .error e
        | .error e => .error e
      else if action = "fill_underlighting" then
        match pyInt (dictGet fields "r" (.num 0)) with
        | .ok r =>
          match pyInt (dictGet fields "g" (.num 0)) with
          | .ok g =>
            match pyInt (dictGet fields "b" (.num 0)) with
            | .ok b => .ok ⟨true, [.fill_underlighting r g b], []⟩
            | .error e => .error e
          | .error e => .error e
        | .error e => .error e
      else if action = "read_distance" then
        .ok ⟨true, [.read_distance], [distanceReply distanceRepr]⟩
      else if action = "ping" then .ok ⟨true, [], [pongReply]⟩
      else if action = "exit" then .ok ⟨false, [], []⟩
      else .ok ⟨true, [], []⟩
    | _ => .error .attributeError
  | _ => .error .attributeError

/-- Model of CommandServer.parse_command on one received line. The input
is the result of json.loads on that line (none when decoding fails). The
except clauses of the source map JSONDecodeError to continue,
ValueError / TypeError / KeyError to continue, and every other exception
to the disconnect signal. -/
def parse_command (distanceRepr : String) (decoded : Option J) : DispatchOut :=
  match decoded with
  | none => ⟨true, [], []⟩
  | some j =>
    match parseBody distanceRepr j with
    | .ok out => out
    | .error .valueError => ⟨true, [], []⟩
    | .error .typeError => ⟨true, [], []⟩
    | .error .keyError => ⟨true, [], []⟩
    | .error .jsonDecodeError => ⟨true, [], []⟩
    | .error .attributeError => ⟨false, [], []⟩

/-- One line received by the session read loop after stripping: a
whitespace-only line (skipped before any parsing), a non-blank line that
json.loads rejects, or a non-blank line that decodes to a JSON value. -/
inductive LineMsg where
  | blank
  | invalid
  | msg (j : J)

/-- Value handed to json.loads inside parse_command for a non-blank
line: none models a JSONDecodeError. -/
def LineMsg.decoded : LineMsg → Option J
  | .blank => none
  | .invalid => none
  | .msg j => some j

/-- Observable events of one client session, in order. -/
inductive SessionEv where
  | start_stream (ip : String) (port : ℤ)
  | effect (e : Eff)
  | reply (bytes : String)
  | stop_stream
  | close_conn
  | clear_slot
deriving Repr, DecidableEq

/-- Events produced by one dispatcher call: the actuator calls, then the
reply bytes written on the connection. -/
def outEvents (o : DispatchOut) : List SessionEv :=
  o.effects.map .effect ++ o.replies.map .reply

/-- Read loop of CommandServer.handle_client over the received lines:
blank lines are skipped, each other line is dispatched, and the loop
breaks when the dispatcher returns the disconnect signal. -/
def sessionLoop (distanceRepr : String) : List LineMsg → List SessionEv
  | [] => []
  | .blank :: rest => sessionLoop distanceRepr rest
  | line :: rest =>
    let out := parse_command distanceRepr line.decoded
    if out.cont then outEvents out ++ sessionLoop distanceRepr rest
    else outEvents out

/-- Model of CommandServer.handle_client: starts the video streamer at
the client address with the configured UDP port, runs the read loop (the
line list ends at peer close, a connection reset, or any read error),
and the finally block then stops the streamer, closes the connection and
clears the client-handler slot, in that order, on every exit path. -/
def handle_client (distanceRepr : String) (clientIp : String) (udpPort : ℤ)
    (lines : List LineMsg) : List SessionEv :=
  .start_stream clientIp udpPort ::
    (sessionLoop distanceRepr lines ++ [.stop_stream, .close_conn, .clear_slot])

/-- Shared server state seen by the listen worker: the running flag, the
client-handler slot (whether a handler thread is alive), and the history
of promoted sessions, each entry true while that session is still
active. The source stores only the current handler thread; the history
list is what the single-active-session invariant is stated over. -/
structure ServerSt where
  running : Bool
  handlerAlive : Bool
  sessions : List Bool
deriving Repr, DecidableEq

/-- Exact bytes of the busy rejection written by the source: conn.sendall
of the literal byte string with a space after the colon. -/
def busyReply : String := "\x7b\"error\": \"Server busy\"\x7d\n"

/-- What the listen worker did with one accepted connection. -/
inductive AcceptAct where
  | closed_not_running
  | rejected (reply : String)
  | promoted
deriving Repr, DecidableEq

/-- Decision of CommandServer.listen_worker for one accepted connection:
a connection accepted after the running flag was cleared is closed at
once; otherwise, under the client lock, the connection is rejected with
the busy reply when a handler thread is alive, else promoted to a new
session handler. -/
def acceptConn (s : ServerSt) : ServerSt × AcceptAct :=
  if !s.running then (s, .closed_not_running)
  else if s.handlerAlive then (s, .rejected busyReply)
  else ({ s with handlerAlive := true, sessions := s.sessions ++ [true] }, .promoted)

/-- How the blocking accept call completed: with a connection, or with
OSError because the listening socket was closed. -/
inductive AcceptRes where
  | conn
  | oserror
deriving Repr, DecidableEq

/-- One turn of the accept loop once the blocking accept completes. The
Bool is whether the loop keeps running: a post-shutdown connection and
an OSError both break out of the loop. -/
def listenStep (s : ServerSt) : AcceptRes → ServerSt × Bool × List AcceptAct
  | .conn =>
    match acceptConn s with
    | (s2, .closed_not_running) => (s2, false, [.closed_not_running])
    | (s2, act) => (s2, true, [act])
  | .oserror => (s, false, [])

/-- Arbitration-level events: the listen worker accepts a connection, or
the active client handler finishes its teardown and clears the slot. -/
inductive ServerEv where
  | accept
  | handler_done
deriving Repr, DecidableEq

/-- Teardown of the active handler (the finally block of handle_client):
the slot is cleared and the session it owned is no longer active. -/
def handlerDone (s : ServerSt) : ServerSt :=
  { s with handlerAlive := false, sessions := s.sessions.map (fun _ => false) }

def serverStep (s : ServerSt) : ServerEv → ServerSt
  | .accept => (acceptConn s).1
  | .handler_done => handlerDone s

def serverRun (s : ServerSt) (evs : List ServerEv) : ServerSt :=
  evs.foldl serverStep s

/-- Number of currently active sessions. -/
def activeCount (s : ServerSt) : ℕ := s.sessions.count true

/-- Server state right after start: no handler, no session yet. -/
def initSt (running : Bool) : ServerSt := ⟨running, false, []⟩

/-- Ordered actions of CommandServer.stop on a running server: clear the
running flag, stop the video streamer (whose own stop joins its worker
with a 5 second timeout), unblock a pending accept with a self-directed
connection carrying a 0.5 second timeout, close the listening socket,
then join the listener thread and any client-handler thread, each with a
2 second timeout. -/
inductive StopEv where
  | set_running_false
  | stop_streamer (joinTimeout : ℚ)
  | wake_connect (timeout : ℚ)
  | close_listener
  | join_listen (timeout : ℚ)
  | join_handler (timeout : ℚ)
deriving Repr, DecidableEq

def stopTrace : List StopEv :=
  [.set_running_false, .stop_streamer 5, .wake_connect (1/2), .close_listener,
   .join_listen 2, .join_handler 2]

/-- Upper bound, in seconds, on how long one stop action can block: the
waits carry explicit timeouts, flag writes and socket closure do not
block. -/
def StopEv.bound : StopEv → ℚ
  | .set_running_false => 0
  | .stop_streamer t => t
  | .wake_connect t => t
  | .close_listener => 0
  | .join_listen t => t
  | .join_handler t => t

/-- Whether a stop action is a passive bounded wait on another thread
rather than a state change. -/
def StopEv.isJoin : StopEv → Bool
  | .join_listen _ => true
  | .join_handler _ => true
  | _ => false

end CommandServer

namespace VideoStreamer

/-- State of a VideoStreamer: the target address fields, the running
flag, and how many stream worker threads were ever spawned. -/
structure St where
  target_ip : Option String
  target_port : Option ℤ
  running : Bool
  threads : ℕ
deriving Repr, DecidableEq

/-- State set up by VideoStreamer.__init__: no target, not running. -/
def initSt : St := ⟨none, none, false, 0⟩

inductive StartRes where
  | already_running
  | config_error
  | started
deriving Repr, DecidableEq

/-- Python truthiness of the target_ip argument: None and the empty
string are falsy. -/
def truthyIp : Option String → Bool
  | none => false
  | some s => !s.isEmpty

/-- Python truthiness of the target_port argument: None and 0 are falsy;
every other integer, including a negative one, is truthy. -/
def truthyPort : Option ℤ → Bool
  | none => false
  | some p => p != 0

/-- Model of VideoStreamer.start: a logged no-op when already running; a
logged configuration error, with no state change and no thread spawned,
when target_ip or target_port is falsy; otherwise records the target,
sets running and spawns one stream worker thread. -/
def start (s : St) (ip : Option String) (port : Option ℤ) : St × StartRes :=
  if s.running then (s, .already_running)
  else if !truthyIp ip || !truthyPort port then (s, .config_error)
  else ({ target_ip := ip, target_port := port, running := true,
          threads := s.threads + 1 }, .started)

end VideoStreamer

/-- State of a StreamingOutput: the single held frame (byte string) and
the threads currently blocked in condition.wait. -/
structure StreamingOutput where
  frame : Option (List ℕ)
  waiters : List ℕ
deriving Repr, DecidableEq

/-- Result of one write: the new buffer state and the waiters woken. -/
structure WriteOut where
  state : StreamingOutput
  woken : List ℕ
deriving Repr, DecidableEq

/-- Model of StreamingOutput.write under the condition lock: the held
frame is replaced unconditionally by the new buffer, nothing is queued,
and notify_all wakes every thread waiting on the condition. -/
def StreamingOutput.write (s : StreamingOutput) (buf : List ℕ) : WriteOut :=
  ⟨⟨some buf, []⟩, s.waiters⟩

/-- Reading the held frame, as the stream worker does after waking. -/
def StreamingOutput.readFrame (s : StreamingOutput) : Option (List ℕ) :=
  s.frame

/-- Maximum single-datagram UDP payload accepted by the stream worker. -/
def MAX_UDP_PACKET_SIZE : ℕ := 65507

/-- What one turn of the stream worker did. -/
inductive IterStep where
  | exit_loop
  | skipped_oversize (frameLen : ℕ)
  | sent (frame : List ℕ) (ip : String) (port : ℤ)
  | idle
deriving Repr, DecidableEq

/-- One turn of VideoStreamer.stream_worker after condition.wait
returns: exit when the running flag was cleared; otherwise, when the
snapshot frame and both target fields are truthy, drop the frame with a
logged warning if it exceeds the maximum UDP payload, else send it as
one datagram; a falsy frame or target leaves the turn idle and the loop
continues. -/
def streamIter (running : Bool) (frame : Option (List ℕ))
    (ip : Option String) (port : Option ℤ) : IterStep :=
  if !running then .exit_loop
  else
    match frame, ip, port with
    | some f, some i, some p =>
      if f.isEmpty || i.isEmpty || p == 0 then .idle
      else if f.length > MAX_UDP_PACKET_SIZE then .skipped_oversize f.length
      else .sent f i p
    | _, _, _ => .idle

namespace RobotClient

/-- Controller-side client state: the robot address, the latest stored
video datagram, and the connection flags. -/
structure St where
  robot_ip : String
  video_frame : Option (List ℕ)
  is_connected : Bool
  running : Bool
deriving Repr, DecidableEq

/-- Model of RobotClient.__init__: no video datagram received yet. -/
def init (robot_ip : String) : St := ⟨robot_ip, none, false, false⟩

/-- One datagram arrival in udp_listen_worker: data from the robot
address replaces the stored frame under the video lock; datagrams from
any other source are ignored. -/
def udpRecv (c : St) (data : List ℕ) (srcIp : String) : St :=
  if srcIp == c.robot_ip then { c with video_frame := some data } else c

/-- Model of RobotClient.get_latest_frame, parameterized by the OpenCV
decode pipeline (np.frombuffer followed by cv2.imdecode), which yields
none both when imdecode returns None and when it raises, since the
except clause returns None. A falsy (empty) stored byte string also
yields none. Every failure path returns the no-frame value rather than
raising. -/
def get_latest_frame {α : Type} (decode : List ℕ → Option α) (c : St) : Option α :=
  match c.video_frame with
  | none => none
  | some data => if data.isEmpty then none else decode data

end RobotClient

/-! Theorems. -/

open CommandServer

theorem dictGet_some {fields : List (String × J)} {key : String} {v : J}
    (dflt : J) (h : lookupLast fields key = some v) :
    dictGet fields key dflt = v := by
  simp [dictGet, h]

theorem dictGet_absent {fields : List (String × J)} {key : String}
    (dflt : J) (h : lookupLast fields key = none) :
    dictGet fields key dflt = dflt := by
  simp [dictGet, h]

/-- The single-active-session invariant of the server state. -/
def SessionInv (s : ServerSt) : Prop :=
  activeCount s ≤ 1 ∧ (s.handlerAlive = false → activeCount s = 0)

theorem sessionInv_init (running : Bool) : SessionInv (initSt running) := by
  constructor <;> simp [initSt, activeCount]

theorem sessionInv_step {s : ServerSt} (h : SessionInv s) (ev : ServerEv) :
    SessionInv (serverStep s ev) := by
  obtain ⟨h1, h2⟩ := h
  cases ev with
  | accept =>
    by_cases hr : s.running
    · by_cases hh : s.handlerAlive
      · have hs : serverStep s .accept = s := by simp [serverStep, acceptConn, hr, hh]
        rw [hs]; exact ⟨h1, h2⟩
      · have h0 : activeCount s = 0 := h2 (by simp [hh])
        constructor
        · simp [serverStep, acceptConn, hr, hh, activeCount, List.count_append]
          simp [activeCount] at h0
          simp [h0]
        · intro hfalse
          simp [serverStep, acceptConn, hr, hh] at hfalse
    · have hs : serverStep s .accept = s := by
        simp [serverStep, acceptConn, Bool.of_not_eq_true hr]
      rw [hs]; exact ⟨h1, h2⟩
  | handler_done =>
    have hz : activeCount (handlerDone s) = 0 := by
      simp [handlerDone, activeCount, List.count_eq_zero, List.mem_map]
    exact ⟨by simp [serverStep, hz], fun _ => hz⟩

theorem sessionInv_run {s : ServerSt} (h : SessionInv s) (evs : List ServerEv) :
    SessionInv (serverRun s evs) := by
  induction evs generalizing s with
  | nil => exact h
  | cons ev rest ih => exact ih (sessionInv_step h ev)

/-- Claim C1, amended: along every sequence of accepts and handler
teardowns from the initial state, at most one session is active at any
instant; a connection accepted while a handler is alive is rejected with
the single busy reply, is closed without being promoted, and leaves the
server state, in particular the existing session, unchanged. The actual
reply bytes carry a space after the colon. -/
theorem trilobot_C1 :
    (∀ (running : Bool) (evs : List ServerEv),
        activeCount (serverRun (initSt running) evs) ≤ 1)
    ∧ (∀ s : ServerSt, s.running = true → s.handlerAlive = true →
        acceptConn s = (s, .rejected busyReply)) := by
  constructor
  · intro running evs
    exact (sessionInv_run (sessionInv_init running) evs).1
  · intro s hr hh
    simp [acceptConn, hr, hh]

theorem trilobot_C1_witness :
    acceptConn ⟨true, true, [true]⟩ = (⟨true, true, [true]⟩, .rejected busyReply) :=
  trilobot_C1.2 ⟨true, true, [true]⟩ rfl rfl

/-- Claim C1, counterexample to the stated reply bytes: the rejection
reply the listen worker actually sends is the byte string with a space
after the colon, not the claimed one without it. -/
theorem trilobot_C1_cex :
    (acceptConn ⟨true, true, [true]⟩ = (⟨true, true, [true]⟩, .rejected busyReply))
    ∧ busyReply ≠ "\x7b\"error\":\"Server busy\"\x7d\n" := by
  exact ⟨by rfl, by decide⟩

/-- Actions recognized by the dispatcher chain. -/
def knownActions : List String :=
  ["forward", "backward", "turn_left", "turn_right", "set_speeds", "stop",
   "coast", "set_led", "fill_underlighting", "read_distance", "ping", "exit"]

/-- Claim C2, counterexample: the line consisting of the valid JSON
value null is a malformed message (it has no action), yet the dispatcher
returns the terminate signal, because command.get raises AttributeError
on a non-dict and only the generic exception handler catches it; the
same happens for an object whose action value is not a string. -/
theorem trilobot_C2_cex :
    parse_command "9.9" (some J.null) = ⟨false, [], []⟩
    ∧ parse_command "9.9" (some (.obj [("action", .num 3)])) = ⟨false, [], []⟩ :=
  ⟨rfl, rfl⟩

/-- Claim C2, amended: a line that fails JSON decoding, a JSON object
whose action is missing or an unknown string, a wrong-typed movement
parameter, and a missing required set_led parameter all leave the
dispatcher returning the continue signal with no reply and no actuator
call; however a line decoding to a non-object value, or an object whose
action value is not a string, raises AttributeError, which the generic
handler turns into the terminate signal. -/
theorem trilobot_C2 :
    (∀ d, parse_command d none = ⟨true, [], []⟩)
    ∧ (∀ d fields, lookupLast fields "action" = none →
        parse_command d (some (.obj fields)) = ⟨true, [], []⟩)
    ∧ (∀ d fields a, lookupLast fields "action" = some (.str a) →
        pyLower a ∉ knownActions →
        parse_command d (some (.obj fields)) = ⟨true, [], []⟩)
    ∧ (∀ d fields v, lookupLast fields "action" = some (.str "forward") →
        dictGet fields "speed" (.num 1) = v →
        (pyFloat v = .error .typeError ∨ pyFloat v = .error .valueError) →
        parse_command d (some (.obj fields)) = ⟨true, [], []⟩)
    ∧ (∀ d fields, lookupLast fields "action" = some (.str "set_led") →
        lookupLast fields "led" = none →
        parse_command d (some (.obj fields)) = ⟨true, [], []⟩)
    ∧ (∀ d (j : J), (∀ fields, j ≠ .obj fields) →
        parse_command d (some j) = ⟨false, [], []⟩)
    ∧ (∀ d fields v, lookupLast fields "action" = some v → (∀ s, v ≠ .str s) →
        parse_command d (some (.obj fields)) = ⟨false, [], []⟩) := by
  refine ⟨fun d => rfl, ?_, ?_, ?_, ?_, ?_, ?_⟩
  · intro d fields h
    have h1 : dictGet fields "action" (.str "") = .str "" := dictGet_absent _ h
    have hl : pyLower "" = "" := by decide
    simp [parse_command, parseBody, h1, hl]
  · intro d fields a ha hmem
    have h1 : dictGet fields "action" (.str "") = .str a := dictGet_some _ ha
    simp only [knownActions, List.mem_cons, List.not_mem_nil, or_false] at hmem
    push_neg at hmem
    obtain ⟨n1, n2, n3, n4, n5, n6, n7, n8, n9, n10, n11, n12⟩ := hmem
    by_cases he : pyLower a = ""
    · simp [parse_command, parseBody, h1, he]
    · simp [parse_command, parseBody, h1, he, n1, n2, n3, n4, n5, n6, n7, n8,
        n9, n10, n11, n12]
  · intro d fields v ha hs he
    have h1 : dictGet fields "action" (.str "") = .str "forward" := dictGet_some _ ha
    have hlow : pyLower "forward" = "forward" := by decide
    rcases he with he | he <;> simp [parse_command, parseBody, h1, hs, he, hlow]
  · intro d fields ha hled
    have h1 : dictGet fields "action" (.str "") = .str "set_led" := dictGet_some _ ha
    have h2 : dictGet fields "led" .null = .null := dictGet_absent _ hled
    have hlow : pyLower "set_led" = "set_led" := by decide
    simp [parse_command, parseBody, h1, h2, hlow, pyInt]
  · intro d j hne
    cases j with
    | obj fields => exact absurd rfl (hne fields)
    | null => rfl
    | bool b => rfl
    | num q => rfl
    | str s => rfl
    | arr xs => rfl
  · intro d fields v ha hne
    have h1 : dictGet fields "action" (.str "") = v := dictGet_some _ ha
    cases v with
    | str s => exact absurd rfl (hne s)
    | null => simp [parse_command, parseBody, h1]
    | bool b => simp [parse_command, parseBody, h1]
    | num q => simp [parse_command, parseBody, h1]
    | arr xs => simp [parse_command, parseBody, h1]
    | obj gs => simp [parse_command, parseBody, h1]

theorem trilobot_C2_witness :
    parse_command "9.9" (some (.obj [("action", .str "hover")])) = ⟨true, [], []⟩ :=
  trilobot_C2.2.2.1 "9.9" _ "hover" rfl (by decide)

/-- Claim C3: every valid movement command passes to the actuator
exactly the declared numeric parameter values, or the documented
defaults when omitted: forward, backward, turn_left and turn_right use
the speed field with default 1.0, and set_speeds uses the left and
right fields each with default 0.0. -/
theorem trilobot_C3 :
    (∀ d fields q, lookupLast fields "action" = some (.str "forward") →
        dictGet fields "speed" (.num 1) = .num q →
        parse_command d (some (.obj fields)) = ⟨true, [.forward q], []⟩)
    ∧ (∀ d fields, lookupLast fields "action" = some (.str "forward") →
        lookupLast fields "speed" = none →
        parse_command d (some (.obj fields)) = ⟨true, [.forward 1], []⟩)
    ∧ (∀ d fields q, lookupLast fields "action" = some (.str "backward") →
        dictGet fields "speed" (.num 1) = .num q →
        parse_command d (some (.obj fields)) = ⟨true, [.backward q], []⟩)
    ∧ (∀ d fields, lookupLast fields "action" = some (.str "backward") →
        lookupLast fields "speed" = none →
        parse_command d (some (.obj fields)) = ⟨true, [.backward 1], []⟩)
    ∧ (∀ d fields q, lookupLast fields "action" = some (.str "turn_left") →
        dictGet fields "speed" (.num 1) = .num q →
        parse_command d (some (.obj fields)) = ⟨true, [.turn_left q], []⟩)
    ∧ (∀ d fields, lookupLast fields "action" = some (.str "turn_left") →
        lookupLast fields "speed" = none →
        parse_command d (some (.obj fields)) = ⟨true, [.turn_left 1], []⟩)
    ∧ (∀ d fields q, lookupLast fields "action" = some (.str "turn_right") →
        dictGet fields "speed" (.num 1) = .num q →
        parse_command d (some (.obj fields)) = ⟨true, [.turn_right q], []⟩)
    ∧ (∀ d fields, lookupLast fields "action" = some (.str "turn_right") →
        lookupLast fields "speed" = none →
        parse_command d (some (.obj fields)) = ⟨true, [.turn_right 1], []⟩)
    ∧ (∀ d fields l r, lookupLast fields "action" = some (.str "set_speeds") →
        dictGet fields "left" (.num 0) = .num l →
        dictGet fields "right" (.num 0) = .num r →
        parse_command d (some (.obj fields)) = ⟨true, [.set_motor_speeds l r], []⟩)
    ∧ (∀ d fields, lookupLast fields "action" = some (.str "set_speeds") →
        lookupLast fields "left" = none → lookupLast fields "right" = none →
        parse_command d (some (.obj fields)) =
          ⟨true, [.set_motor_speeds 0 0], []⟩) := by
  refine ⟨?_, ?_, ?_, ?_, ?_, ?_, ?_, ?_, ?_, ?_⟩
  · intro d fields q ha hs
    have h1 : dictGet fields "action" (.str "") = .str "forward" := dictGet_some _ ha
    have hlow : pyLower "forward" = "forward" := by decide
    simp [parse_command, parseBody, h1, hs, pyFloat, hlow]
  · intro d fields ha hs
    have h1 : dictGet fields "action" (.str "") = .str "forward" := dictGet_some _ ha
    have h2 : dictGet fields "speed" (.num 1) = .num 1 := dictGet_absent _ hs
    have hlow : pyLower "forward" = "forward" := by decide
    simp [parse_command, parseBody, h1, h2, pyFloat, hlow]
  · intro d fields q ha hs
    have h1 : dictGet fields "action" (.str "") = .str "backward" := dictGet_some _ ha
    have hlow : pyLower "backward" = "backward" := by decide
    simp [parse_command, parseBody, h1, hs, pyFloat, hlow]
  · intro d fields ha hs
    have h1 : dictGet fields "action" (.str "") = .str "backward" := dictGet_some _ ha
    have h2 : dictGet fields "speed" (.num 1) = .num 1 := dictGet_absent _ hs
    have hlow : pyLower "backward" = "backward" := by decide
    simp [parse_command, parseBody, h1, h2, pyFloat, hlow]
  · intro d fields q ha hs
    have h1 : dictGet fields "action" (.str "") = .str "turn_left" := dictGet_some _ ha
    have hlow : pyLower "turn_left" = "turn_left" := by decide
    simp [parse_command, parseBody, h1, hs, pyFloat, hlow]
  · intro d fields ha hs
    have h1 : dictGet fields "action" (.str "") = .str "turn_left" := dictGet_some _ ha
    have h2 : dictGet fields "speed" (.num 1) = .num 1 := dictGet_absent _ hs
    have hlow : pyLower "turn_left" = "turn_left" := by decide
    simp [parse_command, parseBody, h1, h2, pyFloat, hlow]
  · intro d fields q ha hs
    have h1 : dictGet fields "action" (.str "") = .str "turn_right" := dictGet_some _ ha
    have hlow : pyLower "turn_right" = "turn_right" := by decide
    simp [parse_command, parseBody, h1, hs, pyFloat, hlow]
  · intro d fields ha hs
    have h1 : dictGet fields "action" (.str "") = .str "turn_right" := dictGet_some _ ha
    have h2 : dictGet fields "speed" (.num 1) = .num 1 := dictGet_absent _ hs
    have hlow : pyLower "turn_right" = "turn_right" := by decide
    simp [parse_command, parseBody, h1, h2, pyFloat, hlow]
  · intro d fields l r ha hl hr
    have h1 : dictGet fields "action" (.str "") = .str "set_speeds" := dictGet_some _ ha
    have hlow : pyLower "set_speeds" = "set_speeds" := by decide
    simp [parse_command, parseBody, h1, hl, hr, pyFloat, hlow]
  · intro d fields ha hl hr
    have h1 : dictGet fields "action" (.str "") = .str "set_speeds" := dictGet_some _ ha
    have h2 : dictGet fields "left" (.num 0) = .num 0 := dictGet_absent _ hl
    have h3 : dictGet fields "right" (.num 0) = .num 0 := dictGet_absent _ hr
    have hlow : pyLower "set_speeds" = "set_speeds" := by decide
    simp [parse_command, parseBody, h1, h2, h3, pyFloat, hlow]

theorem trilobot_C3_witness :
    parse_command "9.9" (some (.obj [("action", .str "forward")])) =
      ⟨true, [.forward 1], []⟩
    ∧ parse_command "9.9" (some (.obj [("action", .str "forward"),
        ("speed", .num (1/2))])) = ⟨true, [.forward (1/2)], []⟩ :=
  ⟨trilobot_C3.2.1 "9.9" _ rfl rfl,
   trilobot_C3.1 "9.9" _ (1/2) rfl rfl⟩

/-- Claim C4, counterexample: the reply the dispatcher actually sends
for a ping is the byte string with a space after the colon, not the
claimed byte string without it. -/
theorem trilobot_C4_cex :
    parse_command "9.9" (some (.obj [("action", .str "ping")])) =
      ⟨true, [], [pongReply]⟩
    ∧ pongReply ≠ "\x7b\"status\":\"pong\"\x7d\n" :=
  ⟨rfl, by decide⟩

/-- Claim C4, amended: every message whose action is ping makes the
dispatcher write back on the same connection exactly the bytes of the
pong reply as the source spells them, with a space after the colon, and
return the continue signal, with no actuator call. -/
theorem trilobot_C4 :
    ∀ d fields, lookupLast fields "action" = some (.str "ping") →
      parse_command d (some (.obj fields)) = ⟨true, [], [pongReply]⟩ := by
  intro d fields ha
  have h1 : dictGet fields "action" (.str "") = .str "ping" := dictGet_some _ ha
  have hlow : pyLower "ping" = "ping" := by decide
  simp [parse_command, parseBody, h1, hlow]

theorem trilobot_C4_witness :
    parse_command "9.9" (some (.obj [("action", .str "ping")])) =
      ⟨true, [], [pongReply]⟩ :=
  trilobot_C4 "9.9" _ rfl

/-- Claim C5: a message whose action is exit makes the dispatcher return
the terminate signal with no reply and no actuator call; every session,
whatever its line history and however it ends, finishes by stopping the
video streamer, closing the connection and clearing the handler slot, in
that order; and once the slot is cleared the arbiter promotes the next
accepted connection on a running server. -/
theorem trilobot_C5 :
    (∀ d fields, lookupLast fields "action" = some (.str "exit") →
        parse_command d (some (.obj fields)) = ⟨false, [], []⟩)
    ∧ (∀ d ip port lines, handle_client d ip port lines =
        .start_stream ip port :: (sessionLoop d lines ++
          [.stop_stream, .close_conn, .clear_slot]))
    ∧ (∀ s : ServerSt, s.running = true →
        (acceptConn (handlerDone s)).2 = .promoted) := by
  refine ⟨?_, fun d ip port lines => rfl, ?_⟩
  · intro d fields ha
    have h1 : dictGet fields "action" (.str "") = .str "exit" := dictGet_some _ ha
    have hlow : pyLower "exit" = "exit" := by decide
    simp [parse_command, parseBody, h1, hlow]
  · intro s hr
    simp [acceptConn, handlerDone, hr]

theorem trilobot_C5_witness :
    parse_command "9.9" (some (.obj [("action", .str "exit")])) = ⟨false, [], []⟩
    ∧ (acceptConn (handlerDone ⟨true, true, [true]⟩)).2 = .promoted :=
  ⟨trilobot_C5.1 "9.9" _ rfl, trilobot_C5.2.2 ⟨true, true, [true]⟩ rfl⟩

/-- Claim C6, counterexample: the start guard tests Python truthiness,
not positivity, so starting an idle streamer with the negative port -1
does not fail with a configuration error: it records the target, sets
running and spawns a sender loop. -/
theorem trilobot_C6_cex :
    VideoStreamer.start VideoStreamer.initSt (some "192.168.0.10") (some (-1)) =
      (⟨some "192.168.0.10", some (-1), true, 1⟩, .started) := by
  rfl

/-- Claim C6, amended: starting the streamer while it is already running
is a no-op that spawns no second sender loop and changes nothing;
starting requires a truthy target address and a truthy port, so a None
or empty address and a None or zero port each fail immediately with a
configuration error, spawn no loop and leave the state unchanged, while
any nonzero port, including a negative one, is accepted. -/
theorem trilobot_C6 :
    (∀ (s : VideoStreamer.St) ip port, s.running = true →
        VideoStreamer.start s ip port = (s, .already_running))
    ∧ (∀ (s : VideoStreamer.St) ip port, s.running = false →
        (VideoStreamer.truthyIp ip = false ∨ VideoStreamer.truthyPort port = false) →
        VideoStreamer.start s ip port = (s, .config_error))
    ∧ VideoStreamer.truthyIp (some "") = false
    ∧ VideoStreamer.truthyIp none = false
    ∧ VideoStreamer.truthyPort none = false
    ∧ VideoStreamer.truthyPort (some 0) = false := by
  refine ⟨?_, ?_, rfl, rfl, rfl, by decide⟩
  · intro s ip port hr
    simp [VideoStreamer.start, hr]
  · intro s ip port hr h
    rcases h with h | h <;> simp [VideoStreamer.start, hr, h]

theorem trilobot_C6_witness :
    VideoStreamer.start ⟨some "10.0.0.1", some 9001, true, 1⟩
        (some "10.0.0.2") (some 9001) =
      (⟨some "10.0.0.1", some 9001, true, 1⟩, .already_running)
    ∧ VideoStreamer.start VideoStreamer.initSt (some "") (some 9001) =
      (VideoStreamer.initSt, .config_error) :=
  ⟨trilobot_C6.1 _ _ _ rfl, trilobot_C6.2.1 _ _ _ rfl (Or.inl rfl)⟩

/-- Claim C7: a write to the StreamingOutput buffer unconditionally
replaces the held frame and wakes every waiter; after F1 then F2 are
published the buffer holds exactly F2, any observed read equals F2, and
the resulting state is independent of F1, so F1 can never be observed
once F2 is published and nothing is queued. -/
theorem trilobot_C7 :
    (∀ (s : StreamingOutput) (buf : List ℕ),
        (s.write buf).state.frame = some buf ∧ (s.write buf).woken = s.waiters)
    ∧ (∀ (s : StreamingOutput) (f1 f2 : List ℕ),
        ((s.write f1).state.write f2).state.readFrame = some f2)
    ∧ (∀ (s : StreamingOutput) (f1 f2 g : List ℕ),
        ((s.write f1).state.write f2).state.readFrame = some g → g = f2)
    ∧ (∀ (s : StreamingOutput) (f1 f1' f2 : List ℕ),
        ((s.write f1).state.write f2).state =
          ((s.write f1').state.write f2).state) := by
  refine ⟨fun s buf => ⟨rfl, rfl⟩, fun s f1 f2 => rfl, ?_, fun s f1 f1' f2 => rfl⟩
  intro s f1 f2 g h
  have h2 : some f2 = some g := h
  exact (Option.some.inj h2).symm

theorem trilobot_C7_witness :
    ((StreamingOutput.mk (some [0]) [7]).write [1]).woken = [7]
    ∧ (((StreamingOutput.mk (some [0]) [7]).write [1]).state.write [2]).state.readFrame =
        some [2]
    ∧ ([2] : List ℕ) = [2] :=
  ⟨(trilobot_C7.1 ⟨some [0], [7]⟩ [1]).2, trilobot_C7.2.1 ⟨some [0], [7]⟩ [1] [2],
   trilobot_C7.2.2.1 ⟨some [0], [7]⟩ [1] [2] [2] rfl⟩

/-- Claim C8: in a running sender loop with a truthy target, a frame
longer than the maximum UDP payload of 65507 bytes is dropped with a
logged warning and the loop continues; no sent datagram, under any
state, ever carries a frame exceeding that size, so oversized frames
are never fragmented; and while running is set the loop never exits. -/
theorem trilobot_C8 :
    (∀ (f : List ℕ) (i : String) (p : ℤ), f.length > MAX_UDP_PACKET_SIZE →
        i ≠ "" → p ≠ 0 →
        streamIter true (some f) (some i) (some p) = .skipped_oversize f.length)
    ∧ (∀ r fr ip port g i p, streamIter r fr ip port = .sent g i p →
        g.length ≤ MAX_UDP_PACKET_SIZE)
    ∧ (∀ (f : List ℕ) ip port, streamIter true (some f) ip port ≠ .exit_loop) := by
  refine ⟨?_, ?_, ?_⟩
  · intro f i p hlen hi hp
    have hf : f ≠ [] := by rintro rfl; simp [MAX_UDP_PACKET_SIZE] at hlen
    have hf2 : f.isEmpty = false := by simp [List.isEmpty_iff, hf]
    have hi2 : i.isEmpty = false := by
      cases hie : i.isEmpty
      · rfl
      · exact absurd ((String.isEmpty_iff i).mp hie) hi
    simp [streamIter, hf2, hi2, hp, hlen]
  · intro r fr ip port g i p h
    cases r with
    | false => simp [streamIter] at h
    | true =>
      cases fr with
      | none => simp [streamIter] at h
      | some f =>
        cases ip with
        | none => simp [streamIter] at h
        | some i2 =>
          cases port with
          | none => simp [streamIter] at h
          | some p2 =>
            simp only [streamIter, Bool.not_true, Bool.false_eq_true,
              if_false] at h
            split_ifs at h with h1 h2
            simp only [IterStep.sent.injEq] at h
            obtain ⟨hfg, -, -⟩ := h
            subst hfg
            exact Nat.le_of_not_lt h2
  · intro f ip port
    cases ip with
    | none => simp [streamIter]
    | some i2 =>
      cases port with
      | none => simp [streamIter]
      | some p2 =>
        simp only [streamIter, Bool.not_true, Bool.false_eq_true, if_false]
        split_ifs <;> simp

theorem trilobot_C8_witness :
    streamIter true (some (List.replicate 65508 0)) (some "10.0.0.2") (some 9001) =
      .skipped_oversize (List.replicate 65508 (0 : ℕ)).length :=
  trilobot_C8.1 _ "10.0.0.2" 9001
    (by rw [List.length_replicate]; norm_num [MAX_UDP_PACKET_SIZE]) (by decide)
    (by decide)

/-- Claim C9: stop on a running server clears the running flag first,
issues the self-directed wake-up connection afterwards, and closes the
listening socket after the wake-up, with only passive bounded joins
following it; every blocking step of the trace carries an explicit
timeout summing to 9.5 seconds; and a woken accept, whether it receives
the dummy connection or OSError from the closed socket, exits the loop
without promoting anything, so stop is never left blocked. -/
theorem trilobot_C9 :
    stopTrace[0]? = some .set_running_false
    ∧ stopTrace[2]? = some (.wake_connect (1 / 2))
    ∧ stopTrace[3]? = some .close_listener
    ∧ stopTrace.length = 6
    ∧ (stopTrace.drop 4).all StopEv.isJoin = true
    ∧ (stopTrace.map StopEv.bound).sum = 19 / 2
    ∧ (∀ s : ServerSt, s.running = false →
        listenStep s .conn = (s, false, [.closed_not_running]))
    ∧ (∀ s : ServerSt, listenStep s .oserror = (s, false, [])) := by
  refine ⟨rfl, rfl, rfl, rfl, rfl, by norm_num [stopTrace, StopEv.bound], ?_,
    fun s => rfl⟩
  intro s hr
  simp [listenStep, acceptConn, hr]

theorem trilobot_C9_witness :
    listenStep ⟨false, false, []⟩ .conn =
      (⟨false, false, []⟩, false, [.closed_not_running]) :=
  trilobot_C9.2.2.2.2.2.2.1 ⟨false, false, []⟩ rfl

/-- Claim C10: get_latest_frame is total and never raises: it returns
none in the initial state, in every state with no stored datagram, for
an empty stored datagram, and whenever the decode pipeline fails; a
decoded frame is returned only when a nonempty datagram was stored, and
the receive worker stores nothing from a non-robot source address. -/
theorem trilobot_C10 :
    (∀ (α : Type) (decode : List ℕ → Option α) (ip : String),
        RobotClient.get_latest_frame decode (RobotClient.init ip) = none)
    ∧ (∀ (α : Type) (decode : List ℕ → Option α) (c : RobotClient.St),
        c.video_frame = none → RobotClient.get_latest_frame decode c = none)
    ∧ (∀ (α : Type) (decode : List ℕ → Option α) (c : RobotClient.St)
        (data : List ℕ), c.video_frame = some data → decode data = none →
        RobotClient.get_latest_frame decode c = none)
    ∧ (∀ (α : Type) (decode : List ℕ → Option α) (c : RobotClient.St) (fr : α),
        RobotClient.get_latest_frame decode c = some fr →
        ∃ data, c.video_frame = some data ∧ data ≠ [] ∧ decode data = some fr)
    ∧ (∀ (c : RobotClient.St) (data : List ℕ) (src : String),
        src ≠ c.robot_ip → RobotClient.udpRecv c data src = c) := by
  refine ⟨fun α decode ip => rfl, ?_, ?_, ?_, ?_⟩
  · intro α decode c h
    simp [RobotClient.get_latest_frame, h]
  · intro α decode c data h hd
    simp only [RobotClient.get_latest_frame, h]
    split_ifs <;> simp [hd]
  · intro α decode c fr h
    cases hc : c.video_frame with
    | none => simp [RobotClient.get_latest_frame, hc] at h
    | some data =>
      simp only [RobotClient.get_latest_frame, hc] at h
      by_cases he : data.isEmpty
      · rw [if_pos he] at h; simp at h
      · rw [if_neg he] at h
        exact ⟨data, rfl, by simpa using he, h⟩
  · intro c data src h
    simp [RobotClient.udpRecv, h]

theorem trilobot_C10_witness :
    RobotClient.get_latest_frame (fun _ : List ℕ => (none : Option (List ℕ)))
      ⟨"10.0.0.1", some [1, 2], false, false⟩ = none
    ∧ RobotClient.udpRecv ⟨"10.0.0.1", none, false, false⟩ [1] "10.0.0.9" =
      ⟨"10.0.0.1", none, false, false⟩ :=
  ⟨trilobot_C10.2.2.1 _ _ _ [1, 2] rfl rfl,
   trilobot_C10.2.2.2.2 _ [1] "10.0.0.9" (by decide)⟩

end Trilobot
